import Mathlib

/-!
Shallow embedding of the SMART contribution components (surface layer,
sub-surface, open water) for the cm4twc framework.  Every spatial cell is
processed independently and element-wise by the source, so the embedding
works per cell: each numpy array is represented by the value it holds at
one given cell.

The source
uses IEEE NaN as a per-cell branch-selection sentinel (`np.where(cond, x,
np.nan)`, `np.isnan`), so cell values are modelled by the type `Fl` below:
either a numeric value (modelled as a rational, since no claim concerns
floating-point rounding) or the NaN placeholder.  Arithmetic propagates
NaN and every comparison involving NaN is false, exactly as in IEEE
arithmetic restricted to the operations the source uses.
-/

namespace Smart

/-- A cell value as held in the source's numpy arrays: a numeric value
(`num`) or the NaN placeholder (`nan`) used for branch masking. -/
inductive Fl where
  | nan : Fl
  | num : ℚ → Fl
deriving DecidableEq

/-- Addition; NaN-propagating. -/
def Fl.add : Fl → Fl → Fl
  | .num a, .num b => .num (a + b)
  | _, _ => .nan

/-- Subtraction; NaN-propagating. -/
def Fl.sub : Fl → Fl → Fl
  | .num a, .num b => .num (a - b)
  | _, _ => .nan

/-- Multiplication; NaN-propagating. -/
def Fl.mul : Fl → Fl → Fl
  | .num a, .num b => .num (a * b)
  | _, _ => .nan

/-- Division; NaN-propagating. -/
def Fl.div : Fl → Fl → Fl
  | .num a, .num b => .num (a / b)
  | _, _ => .nan

/-- Source: `a <= b` as numpy evaluates it: false when either side is NaN. -/
def Fl.le : Fl → Fl → Bool
  | .num a, .num b => decide (a ≤ b)
  | _, _ => false

/-- Source: `a < b` as numpy evaluates it: false when either side is NaN. -/
def Fl.lt : Fl → Fl → Bool
  | .num a, .num b => decide (a < b)
  | _, _ => false

/-- Source: `np.isnan`. -/
def Fl.isNan : Fl → Bool
  | .nan => true
  | .num _ => false

/-! ## Surface layer component (src/surfacelayer/smart.py, `SMART.run`)

Inputs that `run` receives but never reads (`water_level`,
`surface_area`) are omitted from the input record.  The forcing and
parameter inputs are plain numeric data supplied by the host, hence
rationals. -/

/-- Per-cell inputs of the surface-layer `run`. -/
structure SLIn where
  soil_water_stress : ℚ
  precipitation : ℚ
  potential_evapotranspiration : ℚ
  theta_t : ℚ
  theta_z : ℚ
deriving DecidableEq

/-- Source: `corrected_rain = precipitation * theta_t`. -/
def correctedRain (c : SLIn) : ℚ := c.precipitation * c.theta_t

/-- Source: `rain_minus_peva = corrected_rain - potential_evapotranspiration`. -/
def rainMinusPeva (c : SLIn) : ℚ :=
  correctedRain c - c.potential_evapotranspiration

/-- Source: `energy_limited = rain_minus_peva >= 0.0`; `water_limited` is its
negation. -/
def energyLimited (c : SLIn) : Bool := decide (0 ≤ rainMinusPeva c)

/-- Source: `effective_rain = np.where(energy_limited, rain_minus_peva, np.nan)`. -/
def effectiveRain (c : SLIn) : Fl :=
  if energyLimited c then .num (rainMinusPeva c) else .nan

/-- Source: `unmet_peva = np.where(water_limited, -rain_minus_peva, np.nan)`. -/
def unmetPevaSL (c : SLIn) : Fl :=
  if energyLimited c then .nan else .num (-(rainMinusPeva c))

/-- Source: `soil_moisture = soil_water_stress * theta_z`. -/
def soilMoisture (c : SLIn) : ℚ := c.soil_water_stress * c.theta_z

/-- Source: `soil_moisture_contribution = np.where(water_limited, soil_moisture,
np.nan)`. -/
def soilMoistureContrib0 (c : SLIn) : Fl :=
  if energyLimited c then .nan else .num (soilMoisture c)

/-- Source: `soil_moisture_contribution = np.where(soil_moisture_contribution >=
unmet_peva, unmet_peva, soil_moisture_contribution)` — the comparison is
false on NaN, so energy-limited cells keep the NaN placeholder. -/
def soilMoistureContrib (c : SLIn) : Fl :=
  if Fl.le (unmetPevaSL c) (soilMoistureContrib0 c)
  then unmetPevaSL c else soilMoistureContrib0 c

/-- Source: `actual_evapotranspiration = potential_evapotranspiration +
soil_moisture_contribution` (NaN-propagating addition). -/
def actualEvapotranspiration (c : SLIn) : Fl :=
  Fl.add (.num c.potential_evapotranspiration) (soilMoistureContrib c)

/-- The exchange fields and component output returned by the
surface-layer `run` for one cell. -/
structure SLOut where
  throughfall : Fl
  snowmelt : Fl
  transpiration : Fl
  evaporation_soil_surface : Fl
  evaporation_ponded_water : Fl
  evaporation_openwater : Fl
  evapotranspiration : Fl
deriving DecidableEq

/-- The surface-layer `run` per cell: the four zero fluxes are
`np.zeros`, the two regime fluxes carry the NaN sentinel in the regime
they do not own. -/
def surfaceLayerRun (c : SLIn) : SLOut :=
  { throughfall := effectiveRain c
    snowmelt := .num 0
    transpiration := .num 0
    evaporation_soil_surface := soilMoistureContrib c
    evaporation_ponded_water := .num 0
    evaporation_openwater := .num 0
    evapotranspiration := actualEvapotranspiration c }

/-! ## Sub-surface component (src/subsurface/smart.py, `SMART.run`)

The unused `surface_area` input is omitted.  `dt` is
`self.timedelta_in_seconds`, supplied by the host.  Parameters are plain
numeric configuration scalars.  The previous-timestep slot of each state
(`soil_layers[-1]`, `*_store[-1]`) holds numeric data, hence rationals;
the current-timestep slot is computed by `run` through NaN-masked
assignments and is therefore of type `Fl`. -/

/-- Per-cell inputs of the sub-surface `run` (exchange fluxes, parameters
and the timestep length). -/
structure SubIn where
  transpiration : Fl
  evaporation_soil_surface : Fl
  evaporation_ponded_water : Fl
  throughfall : Fl
  snowmelt : Fl
  theta_c : ℚ
  theta_h : ℚ
  theta_d : ℚ
  theta_s : ℚ
  theta_z : ℚ
  theta_sk : ℚ
  theta_fk : ℚ
  theta_gk : ℚ
  dt : ℚ
deriving DecidableEq

/-- The previous-timestep slot of the sub-surface states for one cell:
six soil-layer depths and five linear-reservoir storages. -/
structure SubState where
  soil_layers : Fin 6 → ℚ
  overland_store : ℚ
  drain_store : ℚ
  inter_store : ℚ
  shallow_gw_store : ℚ
  deep_gw_store : ℚ

/-- Source: `excess_rain = (throughfall + snowmelt) * dt`. -/
def excessRain0 (c : SubIn) : Fl :=
  Fl.mul (Fl.add c.throughfall c.snowmelt) (.num c.dt)

/-- Source: `unmet_peva = (transpiration + evaporation_soil_surface +
evaporation_ponded_water) * dt`. -/
def unmetPeva0 (c : SubIn) : Fl :=
  Fl.mul (Fl.add (Fl.add c.transpiration c.evaporation_soil_surface)
                 c.evaporation_ponded_water)
         (.num c.dt)

/-- Source: `water_limited = np.isnan(excess_rain)`; `energy_limited` is its
negation. -/
def waterLimitedSub (c : SubIn) : Bool := (excessRain0 c).isNan

/-- Source: `soil_water = np.sum(soil_layers[-1], axis=-1)` (sum of the six
previous layer depths). -/
def soilWaterPrv (s : SubState) : ℚ :=
  s.soil_layers 0 + s.soil_layers 1 + s.soil_layers 2 +
  s.soil_layers 3 + s.soil_layers 4 + s.soil_layers 5

/-- Source: `theta_h_prime = theta_h * (soil_water / theta_z)`. -/
def thetaHPrime (c : SubIn) (s : SubState) : ℚ :=
  c.theta_h * (soilWaterPrv s / c.theta_z)

/-- Source: `overland_flow = theta_h_prime * excess_rain`. -/
def overlandFlowE (c : SubIn) (s : SubState) : Fl :=
  Fl.mul (.num (thetaHPrime c s)) (excessRain0 c)

/-- Source: `excess_rain -= overland_flow` (remainder that infiltrates). -/
def excessRain1 (c : SubIn) (s : SubState) : Fl :=
  Fl.sub (excessRain0 c) (overlandFlowE c s)

/-- Source: `layer_capacity = theta_z / 6.0`. -/
def layerCapacity (c : SubIn) : ℚ := c.theta_z / 6

/-- One iteration of the percolation loop, acting on
`(layer_crt, excess_rain)` for one layer with previous depth `prv`.  The
four masked assignments of the source are applied in order; in
particular the second mask `excess_rain > layer_prv` is evaluated on the
excess as already updated by the first branch, exactly as in the
source. -/
def percCell (cap prv : ℚ) (st : Fl × Fl) : Fl × Fl :=
  let crt := if Fl.le st.2 (.num prv) then Fl.add (.num prv) st.2 else st.1
  let er := if Fl.le st.2 (.num prv) then .num 0 else st.2
  let crt2 := if Fl.lt (.num prv) er then .num cap else crt
  let er2 := if Fl.lt (.num prv) er then Fl.sub er (.num (cap - prv)) else er
  (crt2, er2)

/-- The percolation `for i in range(6)` loop after `n` iterations:
current layer depths (initialised from the previous slot by
`soil_layers[0][:] = soil_layers[-1]`) and remaining excess rain. -/
def percSeq (cap : ℚ) (prv : Fin 6 → ℚ) (er0 : Fl) : Nat → (Fin 6 → Fl) × Fl
  | 0 => (fun i => .num (prv i), er0)
  | n + 1 =>
    let st := percSeq cap prv er0 n
    if h : n < 6 then
      let r := percCell cap (prv ⟨n, h⟩) (st.1 ⟨n, h⟩, st.2)
      (Function.update st.1 ⟨n, h⟩ r.1, r.2)
    else st

/-- Layer depths and remaining excess rain after the full percolation
loop. -/
def percOut (c : SubIn) (s : SubState) : (Fin 6 → Fl) × Fl :=
  percSeq (layerCapacity c) s.soil_layers (excessRain1 c s) 6

/-- Source: `drain_flow = theta_d * excess_rain` (saturation excess left after
layer 6). -/
def drainFlowE (c : SubIn) (s : SubState) : Fl :=
  Fl.mul (.num c.theta_d) (percOut c s).2

/-- Source: `inter_flow = (1.0 - theta_d) * excess_rain`. -/
def interFlowE0 (c : SubIn) (s : SubState) : Fl :=
  Fl.mul (.num (1 - c.theta_d)) (percOut c s).2

/-- Source: `theta_s_prime = theta_s * (soil_water / theta_z)`. -/
def thetaSPrime (c : SubIn) (s : SubState) : ℚ :=
  c.theta_s * (soilWaterPrv s / c.theta_z)

/-- Source: `shallow_gw_flow = np.where(energy_limited, 0.0, np.nan)`. -/
def shallowGwFlowInit (c : SubIn) : Fl :=
  if waterLimitedSub c then .nan else .num 0

/-- Source: `deep_gw_flow = np.where(energy_limited, 0.0, np.nan)`. -/
def deepGwFlowInit (c : SubIn) : Fl :=
  if waterLimitedSub c then .nan else .num 0

/-- One iteration of the leak loop for 0-indexed layer `i`, acting on
`(layer_crt, inter_flow, shallow_gw_flow, deep_gw_flow)`.  Each of the
three leaks is applied only when strictly smaller than the current layer
depth, in the fixed order interflow, shallow groundwater, deep
groundwater. -/
def leakCell (tsp : ℚ) (i : Nat) (st : Fl × Fl × Fl × Fl) :
    Fl × Fl × Fl × Fl :=
  let crt := st.1
  let leakI := Fl.mul crt (.num (tsp ^ (i + 1)))
  let eI := Fl.lt leakI crt
  let interF := if eI then Fl.add st.2.1 leakI else st.2.1
  let crt := if eI then Fl.sub crt leakI else crt
  let leakS := Fl.mul crt (.num (tsp / (i + 1 : ℚ)))
  let eS := Fl.lt leakS crt
  let shallowF := if eS then Fl.add st.2.2.1 leakS else st.2.2.1
  let crt := if eS then Fl.sub crt leakS else crt
  let leakD := Fl.mul crt (.num (tsp ^ (6 - i)))
  let eD := Fl.lt leakD crt
  let deepF := if eD then Fl.add st.2.2.2 leakD else st.2.2.2
  let crt := if eD then Fl.sub crt leakD else crt
  (crt, interF, shallowF, deepF)

/-- The leak `for i in range(6)` loop after `n` iterations, starting
from the post-percolation layer depths and the initial interflow /
shallow / deep flow aggregates. -/
def leakSeq (tsp : ℚ) (layers0 : Fin 6 → Fl) (if0 sf0 df0 : Fl) :
    Nat → (Fin 6 → Fl) × Fl × Fl × Fl
  | 0 => (layers0, if0, sf0, df0)
  | n + 1 =>
    let st := leakSeq tsp layers0 if0 sf0 df0 n
    if h : n < 6 then
      let r := leakCell tsp n (st.1 ⟨n, h⟩, st.2)
      (Function.update st.1 ⟨n, h⟩ r.1, r.2)
    else st

/-- Layer depths and flow aggregates after the full leak loop. -/
def leakOut (c : SubIn) (s : SubState) : (Fin 6 → Fl) × Fl × Fl × Fl :=
  leakSeq (thetaSPrime c s) (percOut c s).1 (interFlowE0 c s)
    (shallowGwFlowInit c) (deepGwFlowInit c) 6

/-- Source: `overland_flow[water_limited] = 0.0`. -/
def overlandFlowZ (c : SubIn) (s : SubState) : Fl :=
  if waterLimitedSub c then .num 0 else overlandFlowE c s

/-- Source: `drain_flow[water_limited] = 0.0`. -/
def drainFlowZ (c : SubIn) (s : SubState) : Fl :=
  if waterLimitedSub c then .num 0 else drainFlowE c s

/-- Source: `inter_flow[water_limited] = 0.0` (applied to the post-leak
aggregate). -/
def interFlowZ (c : SubIn) (s : SubState) : Fl :=
  if waterLimitedSub c then .num 0 else (leakOut c s).2.1

/-- Source: `shallow_gw_flow[water_limited] = 0.0`. -/
def shallowGwFlowZ (c : SubIn) (s : SubState) : Fl :=
  if waterLimitedSub c then .num 0 else (leakOut c s).2.2.1

/-- Source: `deep_gw_flow[water_limited] = 0.0`. -/
def deepGwFlowZ (c : SubIn) (s : SubState) : Fl :=
  if waterLimitedSub c then .num 0 else (leakOut c s).2.2.2

/-- One iteration of the ET-satisfaction loop for a layer with previous
depth `prv`, acting on `(layer_crt, unmet_peva)`.  Both masks are
computed from the incoming `unmet_peva` before any update (source lines
compute `enough_moisture` / `not_enough_moisture` first); the
carried-over demand is computed from the *current* layer depth
(`layer_crt`), exactly as in the source. -/
def etCell (tc prv : ℚ) (st : Fl × Fl) : Fl × Fl :=
  let en := Fl.le st.2 (.num prv)
  let ne := Fl.lt (.num prv) st.2
  let crt := if en then Fl.sub (.num prv) st.2 else st.1
  let unmet := if en then .num 0 else st.2
  let unmet2 := if ne then Fl.mul (Fl.sub unmet crt) (.num tc) else unmet
  let crt2 := if ne then .num 0 else crt
  (crt2, unmet2)

/-- The ET-satisfaction `for i in range(6)` loop after `n` iterations,
starting from the post-leak layer depths and the unmet ET demand. -/
def etSeq (tc : ℚ) (prv : Fin 6 → ℚ) (layers0 : Fin 6 → Fl) (u0 : Fl) :
    Nat → (Fin 6 → Fl) × Fl
  | 0 => (layers0, u0)
  | n + 1 =>
    let st := etSeq tc prv layers0 u0 n
    if h : n < 6 then
      let r := etCell tc (prv ⟨n, h⟩) (st.1 ⟨n, h⟩, st.2)
      (Function.update st.1 ⟨n, h⟩ r.1, r.2)
    else st

/-- Layer depths after the full ET-satisfaction loop: the final
current-timestep soil layers. -/
def layersFinal (c : SubIn) (s : SubState) : Fin 6 → Fl :=
  (etSeq c.theta_c s.soil_layers (leakOut c s).1 (unmetPeva0 c) 6).1

/-! ### Reservoir routing (src/subsurface/smart.py lines 267-292)

Modelled from the spec: the `cm4twc` state containers themselves live in
the host framework, outside this repository.  Per the spec's dual-state
buffering contract, a state holds a previous-timestep slot (read via
index `-1`) and a current-timestep slot (written via index `0`)
simultaneously; a masked assignment addressed to the whole container
(`store[store < 0] = 0.0`, as written for the inter and deep-groundwater
stores) clamps each slot element-wise, while one addressed to
`store[0]` clamps the current slot only. -/

/-- Source: `overland_runoff = overland_store[-1] / theta_sk`. -/
def overlandRunoff (c : SubIn) (s : SubState) : ℚ :=
  s.overland_store / c.theta_sk

/-- Source: `drain_runoff = drain_store[-1] / theta_sk`. -/
def drainRunoff (c : SubIn) (s : SubState) : ℚ :=
  s.drain_store / c.theta_sk

/-- Source: `inter_runoff = inter_store[-1] / theta_fk`. -/
def interRunoff (c : SubIn) (s : SubState) : ℚ :=
  s.inter_store / c.theta_fk

/-- Source: `shallow_gw_runoff = shallow_gw_store[-1] / theta_gk`. -/
def shallowGwRunoff (c : SubIn) (s : SubState) : ℚ :=
  s.shallow_gw_store / c.theta_gk

/-- Source: `deep_gw_runoff = deep_gw_store[-1] / theta_gk`. -/
def deepGwRunoff (c : SubIn) (s : SubState) : ℚ :=
  s.deep_gw_store / c.theta_gk

/-- Linear-reservoir update of the current slot:
`store[0] = store[-1] + flow - runoff*dt`, then the negative values of
the current slot are clamped to zero. -/
def storeUpdate (prv : ℚ) (flow : Fl) (runoff dt : ℚ) : Fl :=
  let prov := Fl.sub (Fl.add (.num prv) flow) (.num (runoff * dt))
  if Fl.lt prov (.num 0) then .num 0 else prov

/-- Source: `overland_store[0]` after routing and clamping. -/
def overlandCrt (c : SubIn) (s : SubState) : Fl :=
  storeUpdate s.overland_store (overlandFlowZ c s) (overlandRunoff c s) c.dt

/-- Source: `drain_store[0]` after routing and clamping. -/
def drainCrt (c : SubIn) (s : SubState) : Fl :=
  storeUpdate s.drain_store (drainFlowZ c s) (drainRunoff c s) c.dt

/-- Source: `inter_store[0]` after routing and clamping (the source clamps the
whole container; on the current slot the effect is the same clamp). -/
def interCrt (c : SubIn) (s : SubState) : Fl :=
  storeUpdate s.inter_store (interFlowZ c s) (interRunoff c s) c.dt

/-- Source: `shallow_gw_store[0]` after routing and clamping. -/
def shallowGwCrt (c : SubIn) (s : SubState) : Fl :=
  storeUpdate s.shallow_gw_store (shallowGwFlowZ c s) (shallowGwRunoff c s)
    c.dt

/-- Source: `deep_gw_store[0]` after routing and clamping (whole-container clamp;
same effect on the current slot). -/
def deepGwCrt (c : SubIn) (s : SubState) : Fl :=
  storeUpdate s.deep_gw_store (deepGwFlowZ c s) (deepGwRunoff c s) c.dt

/-- Effect on the previous slot of `inter_store[inter_store < 0] = 0.0`:
the clamp is addressed to the whole container, so it also zeroes a
negative previous slot. -/
def interPrvOut (s : SubState) : ℚ :=
  if s.inter_store < 0 then 0 else s.inter_store

/-- Effect on the previous slot of
`deep_gw_store[deep_gw_store < 0] = 0.0` (whole-container clamp). -/
def deepGwPrvOut (s : SubState) : ℚ :=
  if s.deep_gw_store < 0 then 0 else s.deep_gw_store

/-- Source: `surface_runoff = overland_runoff + drain_runoff + inter_runoff`. -/
def surfaceRunoffOut (c : SubIn) (s : SubState) : ℚ :=
  overlandRunoff c s + drainRunoff c s + interRunoff c s

/-- Source: `subsurface_runoff = shallow_gw_runoff + deep_gw_runoff`. -/
def subsurfaceRunoffOut (c : SubIn) (s : SubState) : ℚ :=
  shallowGwRunoff c s + deepGwRunoff c s

/-- Source: `soil_water_stress = np.sum(soil_layers[0], axis=-1) / theta_z`. -/
def soilWaterStressOut (c : SubIn) (s : SubState) : Fl :=
  Fl.div
    (Fl.add (Fl.add (Fl.add (Fl.add (Fl.add (layersFinal c s 0)
      (layersFinal c s 1)) (layersFinal c s 2)) (layersFinal c s 3))
      (layersFinal c s 4)) (layersFinal c s 5))
    (.num c.theta_z)

/-- The complete per-cell result of the sub-surface `run`: the
previous-timestep slots as left by `run`, the current-timestep slots,
and the exchange outputs. -/
structure SubResult where
  prvOut : SubState
  soil_layers_crt : Fin 6 → Fl
  overland_crt : Fl
  drain_crt : Fl
  inter_crt : Fl
  shallow_gw_crt : Fl
  deep_gw_crt : Fl
  surface_runoff : ℚ
  subsurface_runoff : ℚ
  soil_water_stress : Fl

/-- The sub-surface `run` for one cell. -/
def subsurfaceRun (c : SubIn) (s : SubState) : SubResult :=
  { prvOut := { s with inter_store := interPrvOut s
                       deep_gw_store := deepGwPrvOut s }
    soil_layers_crt := layersFinal c s
    overland_crt := overlandCrt c s
    drain_crt := drainCrt c s
    inter_crt := interCrt c s
    shallow_gw_crt := shallowGwCrt c s
    deep_gw_crt := deepGwCrt c s
    surface_runoff := surfaceRunoffOut c s
    subsurface_runoff := subsurfaceRunoffOut c s
    soil_water_stress := soilWaterStressOut c s }

/-! ## Open water component (src/openwater/smart.py, `SMART.run`)

The unused `evaporation_openwater` input is omitted.  The runoff inputs
are the numeric sums produced by the sub-surface component, hence
rationals. -/

/-- Per-cell inputs of the open-water `run`. -/
structure OWIn where
  surface_runoff : ℚ
  subsurface_runoff : ℚ
  theta_rk : ℚ
  dt : ℚ
deriving DecidableEq

/-- Source: `river_flow = river_store[-1] / theta_rk` (provisional outflow). -/
def riverFlow0 (c : OWIn) (prv : ℚ) : ℚ := prv / c.theta_rk

/-- Provisional new store:
`store = river_store[-1] + ((surface_runoff + subsurface_runoff) -
river_flow) * dt`. -/
def riverStoreProv (c : OWIn) (prv : ℚ) : ℚ :=
  prv + ((c.surface_runoff + c.subsurface_runoff) - riverFlow0 c prv) * c.dt

/-- Source: `river_flow = np.where(store < 0, 0.95 * ((surface_runoff +
subsurface_runoff) + (river_store[-1] / dt)), river_flow)`. -/
def riverFlowFinal (c : OWIn) (prv : ℚ) : ℚ :=
  if riverStoreProv c prv < 0 then
    (19 / 20) * ((c.surface_runoff + c.subsurface_runoff) + prv / c.dt)
  else riverFlow0 c prv

/-- Source: `river_store[0] = river_store[-1] + ((surface_runoff +
subsurface_runoff) - river_flow) * dt` with the possibly recomputed
outflow. -/
def riverStoreCrt (c : OWIn) (prv : ℚ) : ℚ :=
  prv + ((c.surface_runoff + c.subsurface_runoff) - riverFlowFinal c prv)
    * c.dt

/-- The per-cell result of the open-water `run`: previous slot as left
by `run` (never written), current slot, and the outflow output. -/
structure OWResult where
  river_prv_out : ℚ
  river_crt : ℚ
  outflow : ℚ
deriving DecidableEq

/-- The open-water `run` for one cell. -/
def openWaterRun (c : OWIn) (prv : ℚ) : OWResult :=
  { river_prv_out := prv
    river_crt := riverStoreCrt c prv
    outflow := riverFlowFinal c prv }

/-! ## Theorems -/

attribute [local semireducible] Rat.add Rat.mul Rat.sub Rat.inv Rat.ofScientific

/-- In an energy-limited cell the soil-moisture contribution keeps the
NaN placeholder: both `unmet_peva` and the provisional contribution are
NaN there, so the limiting comparison is false and the NaN value is
kept. -/
theorem soilMoistureContrib_energy (c : SLIn) (h : energyLimited c = true) :
    soilMoistureContrib c = Fl.nan := by
  unfold soilMoistureContrib soilMoistureContrib0 unmetPevaSL
  simp [h, Fl.le]

/-- In a water-limited cell the soil-moisture contribution is the
minimum of the available moisture and the unmet demand. -/
theorem soilMoistureContrib_water (c : SLIn) (h : energyLimited c = false) :
    soilMoistureContrib c = Fl.num (min (soilMoisture c) (-(rainMinusPeva c))) := by
  unfold soilMoistureContrib soilMoistureContrib0 unmetPevaSL
  by_cases hle : -(rainMinusPeva c) ≤ soilMoisture c
  · simp [h, Fl.le, hle, min_eq_right hle]
  · simp [h, Fl.le, hle, min_eq_left (le_of_not_le hle)]

/-- C1 (amended): for every cell,
`actual_evapotranspiration = potential_evapotranspiration +
soil_contribution` where the contribution is
`min(soil_water_stress * theta_z, unmet demand)` on water-limited cells
— hence actual evapotranspiration is at least (not at most) potential
evapotranspiration there whenever the available moisture is
non-negative — while on energy-limited cells the contribution is the
NaN placeholder, so actual evapotranspiration is NaN rather than equal
to potential evapotranspiration. -/
theorem C1_actual_evapotranspiration (c : SLIn) :
    (surfaceLayerRun c).evapotranspiration =
      Fl.add (.num c.potential_evapotranspiration) (soilMoistureContrib c) ∧
    (energyLimited c = true → (surfaceLayerRun c).evapotranspiration = Fl.nan) ∧
    (energyLimited c = false →
      (surfaceLayerRun c).evapotranspiration =
        Fl.num (c.potential_evapotranspiration +
          min (soilMoisture c) (-(rainMinusPeva c))) ∧
      (0 ≤ soilMoisture c →
        c.potential_evapotranspiration ≤
          c.potential_evapotranspiration +
            min (soilMoisture c) (-(rainMinusPeva c)))) := by
  refine ⟨rfl, ?_, ?_⟩
  · intro h
    show actualEvapotranspiration c = Fl.nan
    unfold actualEvapotranspiration
    rw [soilMoistureContrib_energy c h]
    rfl
  · intro h
    have hu : 0 < -(rainMinusPeva c) := by
      have := of_decide_eq_false h
      push_neg at this
      linarith
    constructor
    · show actualEvapotranspiration c = _
      unfold actualEvapotranspiration
      rw [soilMoistureContrib_water c h]
      rfl
    · intro hsm
      have : 0 ≤ min (soilMoisture c) (-(rainMinusPeva c)) :=
        le_min hsm (le_of_lt hu)
      linarith

/-- Input exhibiting the energy-limited half of the C1 counterexample:
the scenario of the claim itself (`theta_t = 1`, `theta_z = 100`,
`precipitation = 0.0001`, `PET = 0.00002`). -/
def c1CellA : SLIn where
  soil_water_stress := 0
  precipitation := 1/10000
  potential_evapotranspiration := 1/50000
  theta_t := 1
  theta_z := 100

/-- Input exhibiting the water-limited half of the C1 counterexample:
no rain, `PET = 1`, full soil-water stress, `theta_z = 6`. -/
def c1CellB : SLIn where
  soil_water_stress := 1
  precipitation := 0
  potential_evapotranspiration := 1
  theta_t := 1
  theta_z := 6

/-- C1 counterexample: at the claim's own energy-limited scenario the
returned actual evapotranspiration is the NaN placeholder, not the
potential evapotranspiration; and at a concrete water-limited cell the
actual evapotranspiration is 2 while the potential is 1, refuting
"actual is at most potential in water-limited cells". -/
theorem C1_counterexample :
    energyLimited c1CellA = true ∧
    (surfaceLayerRun c1CellA).evapotranspiration = Fl.nan ∧
    Fl.nan ≠ Fl.num c1CellA.potential_evapotranspiration ∧
    energyLimited c1CellB = false ∧
    (surfaceLayerRun c1CellB).evapotranspiration = Fl.num 2 ∧
    c1CellB.potential_evapotranspiration = 1 ∧
    ¬ ((2 : ℚ) ≤ 1) := by
  decide

/-- C1 witness: the amended theorem applied to the two concrete cells,
discharging every hypothesis. -/
theorem C1_actual_evapotranspiration_witness :
    (surfaceLayerRun c1CellA).evapotranspiration = Fl.nan ∧
    (surfaceLayerRun c1CellB).evapotranspiration =
      Fl.num (c1CellB.potential_evapotranspiration +
        min (soilMoisture c1CellB) (-(rainMinusPeva c1CellB))) ∧
    c1CellB.potential_evapotranspiration ≤
      c1CellB.potential_evapotranspiration +
        min (soilMoisture c1CellB) (-(rainMinusPeva c1CellB)) :=
  ⟨(C1_actual_evapotranspiration c1CellA).2.1 (by decide),
   ((C1_actual_evapotranspiration c1CellB).2.2 (by decide)).1,
   ((C1_actual_evapotranspiration c1CellB).2.2 (by decide)).2 (by decide)⟩

/-- C2 (amended): for every cell, `snowmelt`, `transpiration`,
`evaporation_ponded_water` and `evaporation_openwater` are 0
everywhere; but the flux of the inapplicable regime is the NaN
placeholder, not 0: `throughfall` is NaN in water-limited cells (it is
the energy-limited value otherwise) and `evaporation_soil_surface` is
NaN in energy-limited cells (it is the soil contribution otherwise).
The replacement of the placeholder by 0 happens downstream, in the
sub-surface stage. -/
theorem C2_exchange_fields (c : SLIn) :
    (surfaceLayerRun c).snowmelt = Fl.num 0 ∧
    (surfaceLayerRun c).transpiration = Fl.num 0 ∧
    (surfaceLayerRun c).evaporation_ponded_water = Fl.num 0 ∧
    (surfaceLayerRun c).evaporation_openwater = Fl.num 0 ∧
    (energyLimited c = false → (surfaceLayerRun c).throughfall = Fl.nan) ∧
    (energyLimited c = true →
      (surfaceLayerRun c).throughfall = Fl.num (rainMinusPeva c)) ∧
    (energyLimited c = true →
      (surfaceLayerRun c).evaporation_soil_surface = Fl.nan) ∧
    (energyLimited c = false →
      (surfaceLayerRun c).evaporation_soil_surface =
        Fl.num (min (soilMoisture c) (-(rainMinusPeva c)))) := by
  refine ⟨rfl, rfl, rfl, rfl, ?_, ?_, ?_, ?_⟩
  · intro h
    show effectiveRain c = Fl.nan
    unfold effectiveRain
    simp [h]
  · intro h
    show effectiveRain c = _
    unfold effectiveRain
    simp [h]
  · intro h
    exact soilMoistureContrib_energy c h
  · intro h
    exact soilMoistureContrib_water c h

/-- Water-limited input for the C2 counterexample. -/
def c2CellW : SLIn where
  soil_water_stress := 1/2
  precipitation := 0
  potential_evapotranspiration := 1/50000
  theta_t := 1
  theta_z := 100

/-- Energy-limited input for the C2 counterexample. -/
def c2CellE : SLIn where
  soil_water_stress := 1/2
  precipitation := 1/10000
  potential_evapotranspiration := 1/50000
  theta_t := 1
  theta_z := 100

/-- C2 counterexample: at a concrete water-limited cell the returned
`throughfall` is the NaN placeholder rather than 0, and at a concrete
energy-limited cell the returned `evaporation_soil_surface` is the NaN
placeholder rather than 0. -/
theorem C2_counterexample :
    energyLimited c2CellW = false ∧
    (surfaceLayerRun c2CellW).throughfall = Fl.nan ∧
    energyLimited c2CellE = true ∧
    (surfaceLayerRun c2CellE).evaporation_soil_surface = Fl.nan ∧
    Fl.nan ≠ Fl.num 0 := by
  decide

/-- C2 witness: the amended theorem applied to the two concrete cells,
discharging every hypothesis. -/
theorem C2_exchange_fields_witness :
    (surfaceLayerRun c2CellW).throughfall = Fl.nan ∧
    (surfaceLayerRun c2CellW).evaporation_soil_surface =
      Fl.num (min (soilMoisture c2CellW) (-(rainMinusPeva c2CellW))) ∧
    (surfaceLayerRun c2CellE).throughfall = Fl.num (rainMinusPeva c2CellE) ∧
    (surfaceLayerRun c2CellE).evaporation_soil_surface = Fl.nan :=
  ⟨(C2_exchange_fields c2CellW).2.2.2.2.1 (by decide),
   (C2_exchange_fields c2CellW).2.2.2.2.2.2.2 (by decide),
   (C2_exchange_fields c2CellE).2.2.2.2.2.1 (by decide),
   (C2_exchange_fields c2CellE).2.2.2.2.2.2.1 (by decide)⟩

/-- C6: for every cell with non-negative previous channel storage and
non-negative inflow (and a positive timestep), the open-water `run`
recomputes the outflow as `0.95 * (surface_runoff + subsurface_runoff +
prev_storage / dt)` exactly when the provisional new storage
`prev_storage + (inflow - prev_storage / theta_rk) * dt` is negative;
the resulting new storage is non-negative; and with zero previous
storage and zero inflow both the outflow and the new storage are 0. -/
theorem C6_channel_safety_cap (c : OWIn) (prv : ℚ)
    (hprv : 0 ≤ prv) (hsr : 0 ≤ c.surface_runoff)
    (hssr : 0 ≤ c.subsurface_runoff) (hdt : 0 < c.dt) :
    (openWaterRun c prv).outflow =
      (if prv + ((c.surface_runoff + c.subsurface_runoff) - prv / c.theta_rk)
            * c.dt < 0
       then (19/20) * ((c.surface_runoff + c.subsurface_runoff) + prv / c.dt)
       else prv / c.theta_rk) ∧
    0 ≤ (openWaterRun c prv).river_crt ∧
    (prv = 0 → c.surface_runoff = 0 → c.subsurface_runoff = 0 →
      (openWaterRun c prv).outflow = 0 ∧ (openWaterRun c prv).river_crt = 0) := by
  refine ⟨rfl, ?_, ?_⟩
  · show 0 ≤ riverStoreCrt c prv
    unfold riverStoreCrt riverFlowFinal
    by_cases hneg : riverStoreProv c prv < 0
    · rw [if_pos hneg]
      have hdt' : c.dt ≠ 0 := ne_of_gt hdt
      have hin : 0 ≤ c.surface_runoff + c.subsurface_runoff := by linarith
      have hexp : prv + ((c.surface_runoff + c.subsurface_runoff) -
          19 / 20 * (c.surface_runoff + c.subsurface_runoff + prv / c.dt))
            * c.dt =
          (1/20) * prv + (1/20) * (c.surface_runoff + c.subsurface_runoff)
            * c.dt := by
        field_simp
        ring
      rw [hexp]
      have : 0 ≤ (1/20 : ℚ) * (c.surface_runoff + c.subsurface_runoff)
          * c.dt := by positivity
      linarith
    · rw [if_neg hneg]
      exact not_lt.mp hneg
  · intro h0 hs0 hss0
    have hprov : riverStoreProv c prv = 0 := by
      unfold riverStoreProv riverFlow0
      rw [h0, hs0, hss0]
      ring_nf
    constructor
    · show riverFlowFinal c prv = 0
      unfold riverFlowFinal
      rw [hprov, if_neg (by norm_num), h0]
      unfold riverFlow0
      simp
    · show riverStoreCrt c prv = 0
      unfold riverStoreCrt riverFlowFinal
      rw [hprov, if_neg (by norm_num), h0, hs0, hss0]
      unfold riverFlow0
      simp

/-- Concrete open-water input for the C6 witness: the claim's own
scenario (`prev_storage = 0`, `theta_rk = 3600`, zero inflow). -/
def c6Cell : OWIn where
  surface_runoff := 0
  subsurface_runoff := 0
  theta_rk := 3600
  dt := 3600

/-- C6 witness: the theorem applied to the scenario cell, discharging
every hypothesis; the outflow and new storage are both 0. -/
theorem C6_channel_safety_cap_witness :
    0 ≤ (openWaterRun c6Cell 0).river_crt ∧
    (openWaterRun c6Cell 0).outflow = 0 ∧
    (openWaterRun c6Cell 0).river_crt = 0 := by
  have h := C6_channel_safety_cap c6Cell 0 (by norm_num)
    (by norm_num [c6Cell]) (by norm_num [c6Cell]) (by norm_num [c6Cell])
  exact ⟨h.2.1, h.2.2 rfl rfl rfl⟩

/-- Linear-reservoir current-slot update, written with `max`: the
provisional value is kept unless negative, in which case 0 is stored;
the outflow argument is not re-derived. -/
theorem storeUpdate_num (prv : ℚ) (q r dt : ℚ) :
    storeUpdate prv (.num q) r dt = Fl.num (max (prv + q - r * dt) 0) := by
  unfold storeUpdate
  by_cases hneg : prv + q - r * dt < 0
  · rw [show Fl.sub (Fl.add (.num prv) (.num q)) (.num (r * dt)) =
        Fl.num (prv + q - r * dt) from rfl]
    simp [Fl.lt, hneg, max_eq_right (le_of_lt hneg)]
  · rw [show Fl.sub (Fl.add (.num prv) (.num q)) (.num (r * dt)) =
        Fl.num (prv + q - r * dt) from rfl]
    simp [Fl.lt, hneg, max_eq_left (not_lt.mp hneg)]

/-- C7: for each of the five land reservoirs the outflow is the
previous storage divided by the reservoir's residence time, the new
(current-slot) storage is `max(previous + inflow - outflow * dt, 0)`,
and the reported `surface_runoff` and `subsurface_runoff` are sums of
the pre-clamp outflows (they are computed from the previous storages
only, independent of the clamped current values). -/
theorem C7_reservoir_routing (c : SubIn) (s : SubState) :
    (overlandRunoff c s = s.overland_store / c.theta_sk ∧
     drainRunoff c s = s.drain_store / c.theta_sk ∧
     interRunoff c s = s.inter_store / c.theta_fk ∧
     shallowGwRunoff c s = s.shallow_gw_store / c.theta_gk ∧
     deepGwRunoff c s = s.deep_gw_store / c.theta_gk) ∧
    (∀ q, overlandFlowZ c s = Fl.num q →
      (subsurfaceRun c s).overland_crt =
        Fl.num (max (s.overland_store + q - overlandRunoff c s * c.dt) 0)) ∧
    (∀ q, drainFlowZ c s = Fl.num q →
      (subsurfaceRun c s).drain_crt =
        Fl.num (max (s.drain_store + q - drainRunoff c s * c.dt) 0)) ∧
    (∀ q, interFlowZ c s = Fl.num q →
      (subsurfaceRun c s).inter_crt =
        Fl.num (max (s.inter_store + q - interRunoff c s * c.dt) 0)) ∧
    (∀ q, shallowGwFlowZ c s = Fl.num q →
      (subsurfaceRun c s).shallow_gw_crt =
        Fl.num (max (s.shallow_gw_store + q - shallowGwRunoff c s * c.dt) 0)) ∧
    (∀ q, deepGwFlowZ c s = Fl.num q →
      (subsurfaceRun c s).deep_gw_crt =
        Fl.num (max (s.deep_gw_store + q - deepGwRunoff c s * c.dt) 0)) ∧
    (subsurfaceRun c s).surface_runoff =
      overlandRunoff c s + drainRunoff c s + interRunoff c s ∧
    (subsurfaceRun c s).subsurface_runoff =
      shallowGwRunoff c s + deepGwRunoff c s := by
  refine ⟨⟨rfl, rfl, rfl, rfl, rfl⟩, ?_, ?_, ?_, ?_, ?_, rfl, rfl⟩
  all_goals intro q hq
  · show overlandCrt c s = _
    unfold overlandCrt
    rw [hq, storeUpdate_num]
  · show drainCrt c s = _
    unfold drainCrt
    rw [hq, storeUpdate_num]
  · show interCrt c s = _
    unfold interCrt
    rw [hq, storeUpdate_num]
  · show shallowGwCrt c s = _
    unfold shallowGwCrt
    rw [hq, storeUpdate_num]
  · show deepGwCrt c s = _
    unfold deepGwCrt
    rw [hq, storeUpdate_num]

/-- Concrete energy-limited sub-surface input for the C7 witness. -/
def c7Cell : SubIn where
  transpiration := .num 0
  evaporation_soil_surface := .nan
  evaporation_ponded_water := .num 0
  throughfall := .num 0
  snowmelt := .num 0
  theta_c := 1
  theta_h := 1/5
  theta_d := 1/4
  theta_s := 1/10
  theta_z := 100
  theta_sk := 3600
  theta_fk := 7200
  theta_gk := 86400
  dt := 3600

/-- Concrete previous state for the C7 witness (empty soil column, so
every leak is refused and each reservoir inflow is numerically 0). -/
def c7State : SubState where
  soil_layers := fun _ => 0
  overland_store := 5
  drain_store := 4
  inter_store := 3
  shallow_gw_store := 2
  deep_gw_store := 1

/-- C7 witness: the theorem applied to a concrete cell, discharging the
numeric-inflow hypothesis of each of the five reservoirs. -/
theorem C7_reservoir_routing_witness :
    (subsurfaceRun c7Cell c7State).overland_crt =
      Fl.num (max (c7State.overland_store + 0 -
        overlandRunoff c7Cell c7State * c7Cell.dt) 0) ∧
    (subsurfaceRun c7Cell c7State).drain_crt =
      Fl.num (max (c7State.drain_store + 0 -
        drainRunoff c7Cell c7State * c7Cell.dt) 0) ∧
    (subsurfaceRun c7Cell c7State).inter_crt =
      Fl.num (max (c7State.inter_store + 0 -
        interRunoff c7Cell c7State * c7Cell.dt) 0) ∧
    (subsurfaceRun c7Cell c7State).shallow_gw_crt =
      Fl.num (max (c7State.shallow_gw_store + 0 -
        shallowGwRunoff c7Cell c7State * c7Cell.dt) 0) ∧
    (subsurfaceRun c7Cell c7State).deep_gw_crt =
      Fl.num (max (c7State.deep_gw_store + 0 -
        deepGwRunoff c7Cell c7State * c7Cell.dt) 0) :=
  ⟨(C7_reservoir_routing c7Cell c7State).2.1 0 (by decide),
   (C7_reservoir_routing c7Cell c7State).2.2.1 0 (by decide),
   (C7_reservoir_routing c7Cell c7State).2.2.2.1 0 (by decide),
   (C7_reservoir_routing c7Cell c7State).2.2.2.2.1 0 (by decide),
   (C7_reservoir_routing c7Cell c7State).2.2.2.2.2.1 0 (by decide)⟩

/-- C9: given non-negative previous inter-flow and deep-groundwater
storages (the two whose clamp is addressed to the whole state
container), the sub-surface `run` leaves every previous-timestep slot —
the six soil layers and the five land-reservoir storages — unchanged,
and the open-water `run` leaves the previous channel storage
unchanged. -/
theorem C9_previous_slot_unchanged (c : SubIn) (s : SubState)
    (cw : OWIn) (rprv : ℚ)
    (hInter : 0 ≤ s.inter_store) (hDeep : 0 ≤ s.deep_gw_store) :
    (subsurfaceRun c s).prvOut = s ∧
    (openWaterRun cw rprv).river_prv_out = rprv := by
  constructor
  · show { s with inter_store := interPrvOut s
                  deep_gw_store := deepGwPrvOut s } = s
    have h1 : interPrvOut s = s.inter_store := by
      unfold interPrvOut
      rw [if_neg (not_lt.mpr hInter)]
    have h2 : deepGwPrvOut s = s.deep_gw_store := by
      unfold deepGwPrvOut
      rw [if_neg (not_lt.mpr hDeep)]
    rw [h1, h2]
  · rfl

/-- Concrete state for the C9 witness. -/
def c9State : SubState where
  soil_layers := fun _ => 1
  overland_store := 1
  drain_store := 1
  inter_store := 1
  shallow_gw_store := 1
  deep_gw_store := 1

/-- C9 witness: the theorem applied to a concrete cell, discharging the
two non-negativity hypotheses. -/
theorem C9_previous_slot_unchanged_witness :
    (subsurfaceRun c7Cell c9State).prvOut = c9State ∧
    (openWaterRun c6Cell 7).river_prv_out = 7 :=
  C9_previous_slot_unchanged c7Cell c9State c6Cell 7
    (by norm_num [c9State]) (by norm_num [c9State])

/-- C10: the five reservoir outflows of the sub-surface `run` use the
three residence-time parameters in the fixed assignment: overland and
drain divide by `theta_sk`, interflow divides by `theta_fk`, shallow
and deep groundwater divide by `theta_gk`; and the reported runoffs are
their sums. -/
theorem C10_residence_times (c : SubIn) (s : SubState) :
    overlandRunoff c s = s.overland_store / c.theta_sk ∧
    drainRunoff c s = s.drain_store / c.theta_sk ∧
    interRunoff c s = s.inter_store / c.theta_fk ∧
    shallowGwRunoff c s = s.shallow_gw_store / c.theta_gk ∧
    deepGwRunoff c s = s.deep_gw_store / c.theta_gk ∧
    (subsurfaceRun c s).surface_runoff =
      s.overland_store / c.theta_sk + s.drain_store / c.theta_sk +
        s.inter_store / c.theta_fk ∧
    (subsurfaceRun c s).subsurface_runoff =
      s.shallow_gw_store / c.theta_gk + s.deep_gw_store / c.theta_gk :=
  ⟨rfl, rfl, rfl, rfl, rfl, rfl, rfl⟩

/-- Characterisation of one percolation iteration on a numeric excess
and a non-negative previous depth: the sequenced masked assignments of
the source collapse to the two-branch rule (the second mask cannot fire
after the first zeroed the excess, because the previous depth is
non-negative). -/
theorem percCell_spec (cap prv : ℚ) (crt : Fl) (e : ℚ) (hprv : 0 ≤ prv) :
    percCell cap prv (crt, .num e) =
      if e ≤ prv then (Fl.num (prv + e), Fl.num 0)
      else (Fl.num cap, Fl.num (e - (cap - prv))) := by
  unfold percCell
  by_cases hle : e ≤ prv
  · simp [Fl.le, Fl.lt, Fl.add, hle, not_lt.mpr hprv]
  · simp [Fl.le, Fl.lt, Fl.sub, hle, lt_of_not_le hle]

/-- C5: in an energy-limited cell with non-negative previous depths,
the percolation loop visits layers 1 to 6 in order with capacity
`theta_z / 6` each, and at the layer with 0-based index `n`: if the
excess rain remaining on arrival is at most the layer's previous depth,
the new depth is the previous depth plus the excess and the carried
excess becomes 0; otherwise the new depth is the capacity and the
carried excess decreases by `capacity - previous depth`. -/
theorem C5_percolation_step (c : SubIn) (s : SubState)
    (hEL : waterLimitedSub c = false)
    (hprv : ∀ i, 0 ≤ s.soil_layers i)
    (n : Nat) (h : n < 6) (e : ℚ)
    (he : (percSeq (layerCapacity c) s.soil_layers (excessRain1 c s) n).2 =
      Fl.num e) :
    (percSeq (layerCapacity c) s.soil_layers (excessRain1 c s) (n + 1)).1
        ⟨n, h⟩ =
      (if e ≤ s.soil_layers ⟨n, h⟩
       then Fl.num (s.soil_layers ⟨n, h⟩ + e)
       else Fl.num (c.theta_z / 6)) ∧
    (percSeq (layerCapacity c) s.soil_layers (excessRain1 c s) (n + 1)).2 =
      (if e ≤ s.soil_layers ⟨n, h⟩
       then Fl.num 0
       else Fl.num (e - (c.theta_z / 6 - s.soil_layers ⟨n, h⟩))) := by
  have hstep :
      percSeq (layerCapacity c) s.soil_layers (excessRain1 c s) (n + 1) =
        let st := percSeq (layerCapacity c) s.soil_layers (excessRain1 c s) n
        let r := percCell (layerCapacity c) (s.soil_layers ⟨n, h⟩)
          (st.1 ⟨n, h⟩, st.2)
        (Function.update st.1 ⟨n, h⟩ r.1, r.2) := by
    rw [percSeq]
    rw [dif_pos h]
  rw [hstep]
  simp only [he]
  rw [percCell_spec _ _ _ _ (hprv ⟨n, h⟩)]
  have hcap : layerCapacity c = c.theta_z / 6 := rfl
  by_cases hle : e ≤ s.soil_layers ⟨n, h⟩
  · simp [hle, Function.update_same, hcap]
  · simp [hle, Function.update_same, hcap]

/-- Concrete energy-limited sub-surface input for the C5 witness:
`excess_rain` entering the percolation loop is 2, the top layer is
empty, the capacity is 1. -/
def c5Cell : SubIn where
  transpiration := .num 0
  evaporation_soil_surface := .nan
  evaporation_ponded_water := .num 0
  throughfall := .num 2
  snowmelt := .num 0
  theta_c := 1
  theta_h := 0
  theta_d := 1/4
  theta_s := 0
  theta_z := 6
  theta_sk := 3600
  theta_fk := 7200
  theta_gk := 86400
  dt := 1

/-- Concrete previous state for the C5 witness (empty soil column). -/
def c5State : SubState where
  soil_layers := fun _ => 0
  overland_store := 0
  drain_store := 0
  inter_store := 0
  shallow_gw_store := 0
  deep_gw_store := 0

/-- C5 witness: the theorem applied at layer index 0 with excess 2,
discharging every hypothesis; the layer fills to capacity and the
excess decreases by the empty layer's full capacity. -/
theorem C5_percolation_step_witness :
    (percSeq (layerCapacity c5Cell) c5State.soil_layers
        (excessRain1 c5Cell c5State) 1).1 ⟨0, by norm_num⟩ =
      (if (2 : ℚ) ≤ c5State.soil_layers ⟨0, by norm_num⟩
       then Fl.num (c5State.soil_layers ⟨0, by norm_num⟩ + 2)
       else Fl.num (c5Cell.theta_z / 6)) ∧
    (percSeq (layerCapacity c5Cell) c5State.soil_layers
        (excessRain1 c5Cell c5State) 1).2 =
      (if (2 : ℚ) ≤ c5State.soil_layers ⟨0, by norm_num⟩
       then Fl.num 0
       else Fl.num (2 - (c5Cell.theta_z / 6 -
         c5State.soil_layers ⟨0, by norm_num⟩))) :=
  C5_percolation_step c5Cell c5State (by decide) (fun i => by norm_num [c5State])
    0 (by norm_num) 2 (by decide)

/-- Sub-surface input for the C3 counter-evaluation: energy-limited,
`excess_rain = 1` entering the loop (`theta_h = 0`), `theta_z = 6` so
the layer capacity is 1. -/
def c3Cell : SubIn where
  transpiration := .num 0
  evaporation_soil_surface := .nan
  evaporation_ponded_water := .num 0
  throughfall := .num 1
  snowmelt := .num 0
  theta_c := 1
  theta_h := 0
  theta_d := 1/4
  theta_s := 0
  theta_z := 6
  theta_sk := 3600
  theta_fk := 7200
  theta_gk := 86400
  dt := 1

/-- Previous state for the C3 counter-evaluation: the top layer exactly
full (depth 1 = capacity), the others empty — all depths within
`[0, theta_z/6]`. -/
def c3State : SubState where
  soil_layers := fun i => if i = 0 then 1 else 0
  overland_store := 0
  drain_store := 0
  inter_store := 0
  shallow_gw_store := 0
  deep_gw_store := 0

/-- C3: evaluation of the percolation loop at the failing input.  The
cell is energy-limited, every previous depth lies in `[0, theta_z/6]`
and the forcing is non-negative, yet after the loop the top layer holds
2, exceeding the capacity `theta_z/6 = 1`: the loop's guard compares
the excess to the layer's previous depth (1 ≤ 1 “absorbs”) instead of
to the remaining space (0), contradicting the source's own comment
"there is enough space in layer to hold entire excess rain". -/
theorem C3_capacity_violation :
    waterLimitedSub c3Cell = false ∧
    c3Cell.theta_z / 6 = 1 ∧
    c3State.soil_layers 0 = 1 ∧
    excessRain1 c3Cell c3State = Fl.num 1 ∧
    (percOut c3Cell c3State).1 0 = Fl.num 2 ∧
    (subsurfaceRun c3Cell c3State).soil_layers_crt 0 = Fl.num 2 ∧
    ¬ ((2 : ℚ) ≤ 1) := by
  decide

/-- Sub-surface input for the C4 counter-evaluation: water-limited
(`throughfall` carries the NaN sentinel), unmet ET demand 2,
`theta_s = 1/2` so the nominally energy-limited leak loop depletes the
wet top layer, `theta_c = 1/2`. -/
def c4Cell : SubIn where
  transpiration := .num 0
  evaporation_soil_surface := .num 2
  evaporation_ponded_water := .num 0
  throughfall := .nan
  snowmelt := .num 0
  theta_c := 1/2
  theta_h := 1/5
  theta_d := 1/4
  theta_s := 1/2
  theta_z := 6
  theta_sk := 3600
  theta_fk := 7200
  theta_gk := 86400
  dt := 1

/-- Previous state for the C4 counter-evaluation: top layer at depth 1,
others empty. -/
def c4State : SubState where
  soil_layers := fun i => if i = 0 then 1 else 0
  overland_store := 0
  drain_store := 0
  inter_store := 0
  shallow_gw_store := 0
  deep_gw_store := 0

/-- C4: evaluation of the ET-satisfaction pass at the failing input.
The cell is water-limited with unmet demand 2 and top-layer previous
depth 1, so the claimed carry to layer 2 is
`(2 - 1) * theta_c = 1/2`; but the leak loop (inside the source's
"during energy-limited conditions" block) has already depleted the
current top-layer depth to 361303943/429981696, and the code carries
`(2 - current depth) * theta_c = 498659449/859963392` instead. -/
theorem C4_carry_uses_depleted_depth :
    waterLimitedSub c4Cell = true ∧
    unmetPeva0 c4Cell = Fl.num 2 ∧
    c4State.soil_layers 0 = 1 ∧
    (leakOut c4Cell c4State).1 0 = Fl.num (361303943/429981696) ∧
    (etSeq c4Cell.theta_c c4State.soil_layers (leakOut c4Cell c4State).1
        (unmetPeva0 c4Cell) 1).2 = Fl.num (498659449/859963392) ∧
    (2 - 1) * c4Cell.theta_c = 1/2 ∧
    Fl.num (498659449/859963392) ≠ Fl.num (1/2) := by
  decide

/-- Sub-surface input for the C8 counter-evaluation: energy-limited,
`excess_rain = 3/20` entering the loop, capacity `theta_z/6 = 1`. -/
def c8Cell : SubIn where
  transpiration := .num 0
  evaporation_soil_surface := .nan
  evaporation_ponded_water := .num 0
  throughfall := .num (3/20)
  snowmelt := .num 0
  theta_c := 1
  theta_h := 0
  theta_d := 1/4
  theta_s := 0
  theta_z := 6
  theta_sk := 3600
  theta_fk := 7200
  theta_gk := 86400
  dt := 1

/-- Previous state for the C8 counter-evaluation: top layer at depth
1/10, others empty — a non-negative previous state. -/
def c8State : SubState where
  soil_layers := fun i => if i = 0 then 1/10 else 0
  overland_store := 0
  drain_store := 0
  inter_store := 0
  shallow_gw_store := 0
  deep_gw_store := 0

/-- C8: evaluation of the sub-surface `run` at the failing input.  With
non-negative previous state and forcing, the percolation guard sends
the top layer (depth 1/10 < excess 3/20) to full capacity and drives
the carried excess negative (3/20 - (1 - 1/10) = -3/4), which the next
iteration then adds to the empty second layer: the final depth of layer
2 is -3/4 < 0. -/
theorem C8_negative_layer_depth :
    waterLimitedSub c8Cell = false ∧
    c8State.soil_layers 0 = 1/10 ∧
    excessRain1 c8Cell c8State = Fl.num (3/20) ∧
    (subsurfaceRun c8Cell c8State).soil_layers_crt 1 = Fl.num (-3/4) ∧
    ¬ ((0 : ℚ) ≤ -3/4) := by
  decide

end Smart
